import Mathlib

/-
  Verification development for src/bfvmm/src/xen/xen.cpp (the per-vcpu Xen
  compatibility personality of MicroV).

  Shallow embedding conventions:
  * C++ unsigned machine integers are modelled as Nat with explicit
    reduction modulo 2^32 or 2^64 at every operation where wraparound can
    occur in the source.
  * Code that can raise (guest-memory mapping faults, bareflank contract
    checks `expects`/`ensures`) is modelled in `Except Exn`.
  * Collaborator objects (evtchn, gnttab, physdev, xenmem, xenver, sysctl,
    domctl, the domain and the vcpu) are external to this translation unit;
    their calls are modelled as oracle fields of `XenEnv`, each an
    `Except Exn` result covering both a normal return and a raised
    exception inside the callee.
  * Numeric opcode, sub-opcode and errno constants are the values of the
    Xen public ABI headers included by the source file (public/xen.h,
    hvm/hvm_op.h, hvm/params.h, platform.h, vcpu.h, errno.h, xsm/flask_op.h).
-/

/-- Exceptions that can cross function boundaries in the source: a
bareflank contract violation (expects/ensures) or a fault while touching
guest-supplied data (map_arg / map_gva_4k / collaborator internals). -/
inductive Exn where
  | contract : Exn
  | guestFault : Exn
deriving DecidableEq

deriving instance DecidableEq for Except

/-- Bareflank `expects` contract check: throws on violation. -/
def expects (b : Bool) : Except Exn Unit :=
  if b then .ok () else .error .contract

/-- XEN_MAJOR, line 52. -/
def XEN_MAJOR : Nat := 4
/-- XEN_MINOR, line 53. -/
def XEN_MINOR : Nat := 13

/-- Subtraction of uint64 values, i.e. the C++ expression a - b with
wraparound modulo 2^64. -/
def sub64 (a b : Nat) : Nat := (a % 2^64 + (2^64 - b % 2^64)) % 2^64

/-- s_to_ns, line 120: sec * 1000000000ULL on uint64. -/
def s_to_ns (sec : Nat) : Nat := (sec * 1000000000) % 2^64

/-- tsc_to_ns, line 125: ((ticks << shft) * mult) >> 32 on uint64. -/
def tsc_to_ns (ticks shft mult : Nat) : Nat :=
  ((((ticks <<< shft) % 2^64) * mult) % 2^64) >>> 32

/-- ns_to_tsc, line 130: ((ns << 32) / mult) >> shft on uint64. -/
def ns_to_tsc (ns shft mult : Nat) : Nat :=
  (((ns <<< 32) % 2^64) / mult) >>> shft

/-- tsc_to_pet, line 135: tsc >> pet_shift. -/
def tsc_to_pet (tsc pet_shift : Nat) : Nat := tsc >>> pet_shift

/-- do_div macro, lines 56-62 (from xen div64.h): divides n in place by the
uint32 base and returns the remainder.  Modelled as the pair
(quotient, remainder). -/
def do_div (n base : Nat) : Nat × Nat :=
  (n % 2^64 / (base % 2^32), n % 2^64 % (base % 2^32))

/-- Wallclock fields of the shared-info page touched by update_wallclock
(all uint32 in struct shared_info). -/
structure WallClock where
  wc_version : Nat
  wc_sec : Nat
  wc_sec_hi : Nat
  wc_nsec : Nat
deriving DecidableEq

/-- xen::update_wallclock, lines 494-508.  The version field is
incremented once before and once after the payload writes (the wmb()
barriers have no effect on the sequential value written); the payload is
the uint64 delta  s_to_ns(secs) + nsecs - system_time  split by do_div
into seconds (narrowed to the two 32-bit halves wc_sec / wc_sec_hi) and a
nanosecond remainder wc_nsec. -/
def update_wallclock (wc : WallClock) (secs nsecs system_time : Nat) : WallClock :=
  let v1 := (wc.wc_version + 1) % 2^32
  let x0 := sub64 ((s_to_ns secs + nsecs) % 2^64) system_time
  let q := (do_div x0 1000000000).1
  let y := (do_div x0 1000000000).2
  { wc_version := (v1 + 1) % 2^32
    wc_sec := q % 2^32
    wc_sec_hi := (q >>> 32) % 2^32
    wc_nsec := y % 2^32 }

/-- Output registers of a CPUID emulation handler. -/
structure OutRegs where
  rax : Nat
  rbx : Nat
  rcx : Nat
  rdx : Nat
deriving DecidableEq

/-- xen_leaf1, lines 187-196: the emulated CPUID leaf base+1 (0x40000101).
The handler overwrites all four output registers with fixed values (the
input registers are irrelevant) and advances the guest instruction
pointer. -/
def xen_leaf1 (_r : OutRegs) : OutRegs :=
  { rax := 0x00040D00, rbx := 0, rcx := 0, rdx := 0 }

/-- XEN_LEGACY_MAX_VCPUS from the Xen compat headers. -/
def XEN_LEGACY_MAX_VCPUS : Nat := 32

/-- The four Xen-visible identifiers produced by make_xen_ids. -/
structure XenIds where
  domid : Nat
  vcpuid : Nat
  apicid : Nat
  acpiid : Nat
deriving DecidableEq

/-- make_xen_ids, lines 77-106.  The shared state is the static uint32
counter xen_domid (the vcpuid/apicid/acpiid counters are never touched:
those increments are commented out in the source and the three ids are
forced to zero).  Input: whether the domain is the initial/management
domain, and the current counter value; output: the assigned ids and the
new counter value.  The counter is pre-incremented under xen_mutex, with
uint32 wraparound. -/
def make_xen_ids (initdom : Bool) (ctr : Nat) : XenIds × Nat :=
  if initdom then
    ({ domid := 0, vcpuid := 0, apicid := 0, acpiid := 0 }, ctr)
  else
    let c := (ctr + 1) % 2^32
    ({ domid := c, vcpuid := 0, apicid := 0, acpiid := 0 }, c)

/-- A sequence of xen instance constructions (each runs make_xen_ids once,
lines 908-919): the list holds the initdom flag of each constructed
domain, threading the shared counter. -/
def alloc_ids : List Bool → Nat → List XenIds × Nat
  | [], c => ([], c)
  | f :: rest, c =>
    let p := make_xen_ids f c
    let r := alloc_ids rest p.2
    (p.1 :: r.1, r.2)

/-- Number of non-management constructions in a sequence. -/
def count_nonmgmt : List Bool → Nat
  | [] => 0
  | f :: rest => (if f then 0 else 1) + count_nonmgmt rest

/-- The domid values assigned to the non-management constructions of a
sequence, in construction order. -/
def nonmgmt_domids (l : List Bool) (c : Nat) : List Nat :=
  (((alloc_ids l c).1).zip l).filterMap
    (fun p => if p.2 then none else some p.1.domid)

/-- RUNSTATE_running. -/
def RUNSTATE_running : Nat := 0
/-- RUNSTATE_runnable. -/
def RUNSTATE_runnable : Nat := 1
/-- RUNSTATE_blocked. -/
def RUNSTATE_blocked : Nat := 2
/-- XEN_RUNSTATE_UPDATE, bit 63 of state_entry_time. -/
def XEN_RUNSTATE_UPDATE : Nat := 2^63
/-- VCPU_SSHOTTMR_future, bit 0 of the singleshot timer flags. -/
def VCPU_SSHOTTMR_future : Nat := 1
/-- ETIME from xen public/errno.h. -/
def ETIME : Nat := 62
/-- EINVAL from xen public/errno.h. -/
def EINVAL : Nat := 22
/-- ENOSYS from xen public/errno.h. -/
def ENOSYS : Nat := 38
/-- EACCES from xen public/errno.h. -/
def EACCES : Nat := 13

/-- The value a negative C int errno takes once stored in a uint64
guest register by vcpu->set_rax (two's complement). -/
def neg64 (e : Nat) : Nat := (2^64 - e) % 2^64

/-- struct vcpu_time_info (the fields this file reads and writes).
version, tsc_to_system_mul are uint32; tsc_timestamp, system_time are
uint64; tsc_shift is int8, always 0 here (m_tsc_shift = 0, line 923). -/
structure VcpuTimeInfo where
  version : Nat
  tsc_timestamp : Nat
  system_time : Nat
  tsc_to_system_mul : Nat
  tsc_shift : Nat
deriving DecidableEq

/-- struct vcpu_runstate_info: current state, entry timestamp of the
current state, and the four per-state uint64 accumulators time[0..3]
(modelled as fields t0..t3). -/
structure RunstateInfo where
  state : Nat
  state_entry_time : Nat
  t0 : Nat
  t1 : Nat
  t2 : Nat
  t3 : Nat
deriving DecidableEq

/-- time[i] += d on a runstate area, with uint64 wraparound.  The state
values written by this file are RUNSTATE_running/runnable/blocked (0..2);
index 3 is RUNSTATE_offline.  (In C++ an out-of-range state read back
from guest memory would index out of bounds; the claims only exercise
states 0..3.) -/
def RunstateInfo.addTime (rs : RunstateInfo) (i d : Nat) : RunstateInfo :=
  match i with
  | 0 => { rs with t0 := (rs.t0 + d) % 2^64 }
  | 1 => { rs with t1 := (rs.t1 + d) % 2^64 }
  | 2 => { rs with t2 := (rs.t2 + d) % 2^64 }
  | _ => { rs with t3 := (rs.t3 + d) % 2^64 }

/-- Sum of the four per-state accumulators. -/
def sumTime (rs : RunstateInfo) : Nat := rs.t0 + rs.t1 + rs.t2 + rs.t3

/-- Mutable per-instance state of class xen visible to the translated
functions.  vti is the kernel vcpu_time_info slot of the shared-info page:
the source always addresses slot vcpuid of m_shinfo->vcpu_info, and
make_xen_ids forces vcpuid = 0, so a single slot is carried here
(vcpu_time(), lines 567-570).  shinfo_present models whether m_shinfo has
been mapped (wc and vti are meaningful only when it is). -/
structure XenSt where
  rax_out : Nat
  shinfo_present : Bool
  wc : WallClock
  vti : VcpuTimeInfo
  user_vti : Option VcpuTimeInfo
  runstate : Option RunstateInfo
  runstate_assist : Bool
  pet_enabled : Bool
  pet_value : Nat
  pet_shift : Nat
  pet_hdlrs_added : Bool
  domid : Nat
  vcpuid : Nat
  apicid : Nat
  acpiid : Nat
  pcpu_written : Option (Nat × Nat × Nat × Nat)
deriving DecidableEq

/-- The new kernel system_time computed by update_runstate, lines 678-685:
system_time += tsc_to_ns(next - prev, shft, mult) with next the freshly
read TSC (an input here) and prev the stored tsc_timestamp, all uint64. -/
def next_system_time (st : XenSt) (tsc_now : Nat) : Nat :=
  (st.vti.system_time +
    tsc_to_ns (sub64 tsc_now st.vti.tsc_timestamp)
      st.vti.tsc_shift st.vti.tsc_to_system_mul) % 2^64

/-- The runstate-area transformation of update_runstate, lines 708-724:
add the elapsed time to the accumulator of the previous state, store the
new state, and write state_entry_time (with the XEN_RUNSTATE_UPDATE
marker protocol when the runstate assist was negotiated; the net value
written is (XEN_RUNSTATE_UPDATE | system_time) & ~XEN_RUNSTATE_UPDATE,
and the uint64 complement of bit 63 is 2^63 - 1). -/
def runstate_step (rs : RunstateInfo) (sysT : Nat) (assist : Bool) (new_state : Nat) :
    RunstateInfo :=
  let rs1 := rs.addTime rs.state (sub64 sysT rs.state_entry_time)
  let rs2 := { rs1 with state := new_state }
  { rs2 with state_entry_time :=
      if assist then (XEN_RUNSTATE_UPDATE ||| sysT) &&& (2^63 - 1) else sysT }

/-- xen::update_runstate, lines 670-725.  The freshly read TSC
(::x64::read_tsc::get()) is an input.  Each guard is an early return in
the source: no shared-info page returns before anything is touched; no
user time-info mirror returns after the kernel time update; no runstate
area returns after the mirror update.  Version increments (two per
update) wrap as uint32. -/
def update_runstate (st : XenSt) (new_state : Nat) (tsc_now : Nat) : XenSt :=
  if !st.shinfo_present then st
  else
    let sysT := next_system_time st tsc_now
    let kv := { st.vti with
      version := (st.vti.version + 2) % 2^32
      system_time := sysT
      tsc_timestamp := tsc_now % 2^64 }
    let st1 := { st with vti := kv }
    match st1.user_vti with
    | none => st1
    | some uv =>
      let uv2 := { uv with
        version := (uv.version + 2) % 2^32
        system_time := sysT
        tsc_timestamp := tsc_now % 2^64 }
      let st2 := { st1 with user_vti := some uv2 }
      match st2.runstate with
      | none => st2
      | some rs =>
        { st2 with runstate := some (runstate_step rs sysT st2.runstate_assist new_state) }

/-- The VCPUOP_register_runstate_memory_area body, lines 634-643: map the
guest area (whose current content is `area`), then overwrite state with
RUNSTATE_running, state_entry_time with the current kernel system_time,
and time[RUNSTATE_running] with that same value.  The accumulators
time[1..3] keep whatever the guest left in the area. -/
def register_runstate (st : XenSt) (area : RunstateInfo) : XenSt :=
  let t := st.vti.system_time
  { st with runstate := some { area with state := RUNSTATE_running, state_entry_time := t, t0 := t } }

/-- xen::stop_timer, lines 572-576: disable the preemption timer and
clear m_pet_enabled. -/
def stop_timer (st : XenSt) : XenSt :=
  { st with pet_enabled := false }

/-- struct xen_hvm_param_t as read through map_arg in handle_hvm_op. -/
structure HvmParam where
  index : Nat
  value : Nat
deriving DecidableEq

/-- struct xen_platform_op_t as read through map_arg in
handle_platform_op (with the settime64 branch of the union). -/
structure PlatArg where
  interface_version : Nat
  cmd : Nat
  mbz : Nat
  secs : Nat
  nsecs : Nat
  system_time : Nat
deriving DecidableEq

/-- struct xen_flask_op_t as read through map_arg in handle_xsm_op. -/
structure FlaskArg where
  interface_version : Nat
  cmd : Nat
deriving DecidableEq

/-- struct vcpu_set_singleshot_timer_t as read through map_arg in
set_timer. -/
structure SstArg where
  timeout_abs_ns : Nat
  flags : Nat
deriving DecidableEq

/-- The guest registers of the calling vcpu at the VMCALL exit. -/
structure XenRegs where
  rax : Nat
  rdi : Nat
  rsi : Nat
  rdx : Nat
deriving DecidableEq

/-- Environment of one hypercall: the initdom flag of the owning domain
and one oracle per external call a handler can make.  Guest-memory
mapping calls (map_arg / map_gva_4k) return the mapped content, or raise;
collaborator sub-handler calls return their boolean handled/unhandled
result, or raise. -/
structure XenEnv where
  initdom : Bool
  physdev_pci_device_add : Except Exn Bool
  xenmem_memory_map : Except Exn Bool
  xenmem_add_to_physmap : Except Exn Bool
  xenmem_decrease_reservation : Except Exn Bool
  xenmem_get_sharing_freed_pages : Except Exn Bool
  xenmem_get_sharing_shared_pages : Except Exn Bool
  xenver_version : Except Exn Bool
  xenver_extraversion : Except Exn Bool
  xenver_compile_info : Except Exn Bool
  xenver_capabilities : Except Exn Bool
  xenver_changeset : Except Exn Bool
  xenver_platform_parameters : Except Exn Bool
  xenver_get_features : Except Exn Bool
  xenver_pagesize : Except Exn Bool
  xenver_guest_handle : Except Exn Bool
  xenver_commandline : Except Exn Bool
  xenver_build_id : Except Exn Bool
  evtchn_init_control : Except Exn Bool
  evtchn_set_priority : Except Exn Bool
  evtchn_alloc_unbound : Except Exn Bool
  evtchn_expand_array : Except Exn Bool
  evtchn_bind_virq : Except Exn Bool
  evtchn_send : Except Exn Bool
  evtchn_bind_interdomain : Except Exn Bool
  evtchn_close : Except Exn Bool
  evtchn_bind_vcpu : Except Exn Bool
  evtchn_set_callback_via : Except Exn Unit
  gnttab_query_size : Except Exn Bool
  gnttab_set_version : Except Exn Bool
  sysctl_map : Except Exn Unit
  sysctl_handle : Except Exn Bool
  domctl_map : Except Exn Unit
  domctl_handle : Except Exn Bool
  console_map : Except Exn Unit
  hvc_rx_get : Except Exn Nat
  hvc_tx_put : Except Exn Nat
  hvm_param_map : Except Exn HvmParam
  plat_map : Except Exn PlatArg
  flask_map : Except Exn FlaskArg
  sst_map : Except Exn SstArg
  tma_map : Except Exn Unit
  user_vti_map : Except Exn Unit
  rma_map : Except Exn RunstateInfo

/-- Result type of a hypercall sub-handler: the handled flag together
with the state after the call, or a propagating exception. -/
abbrev HRes := Except Exn (Bool × XenSt)

/-- The bareflank catchall wrapper as used in this file: any exception
from the wrapped computation becomes `return false`.  In every wrapped
region the instance state is only written after all throwing operations,
so the state at the catch is the entry state. -/
def catchall (x : HRes) (st : XenSt) : HRes :=
  match x with
  | .error _ => .ok (false, st)
  | r => r

/-- Lift a collaborator call that does not touch the instance state. -/
def liftB (x : Except Exn Bool) (st : XenSt) : HRes :=
  match x with
  | .ok b => .ok (b, st)
  | .error f => .error f

/-- xen::set_timer, lines 578-601.  Reads the singleshot-timer argument
from guest memory (may fault), compares the absolute deadline with the
current system_time of vcpu_time(), and either fails with -ETIME
(future-only flag on a past deadline, no state change), or programs the
preemption timer with the computed tick count and arms it. -/
def set_timer (e : XenEnv) (st : XenSt) : Except Exn (Int × XenSt) :=
  match e.sst_map with
  | .error f => .error f
  | .ok sst =>
    if st.vti.system_time ≥ sst.timeout_abs_ns then
      if sst.flags &&& VCPU_SSHOTTMR_future ≠ 0 then
        .ok (-(ETIME : Int), st)
      else
        .ok (0, { st with pet_value := 0, pet_enabled := true })
    else
      let ns := sst.timeout_abs_ns - st.vti.system_time
      let tsc := ns_to_tsc ns st.vti.tsc_shift st.vti.tsc_to_system_mul
      .ok (0, { st with pet_value := tsc_to_pet tsc st.pet_shift, pet_enabled := true })

/-- Conversion of a C int to the uint64 stored by set_rax. -/
def intToU64 (i : Int) : Nat := (i % (2^64 : Int)).toNat

/-- Hypercall opcode HYPERVISOR_memory_op. -/
def HYPERVISOR_memory_op : Nat := 12
/-- Hypercall opcode HYPERVISOR_xen_version. -/
def HYPERVISOR_xen_version : Nat := 17
/-- Hypercall opcode HYPERVISOR_console_io. -/
def HYPERVISOR_console_io : Nat := 18
/-- Hypercall opcode HYPERVISOR_grant_table_op. -/
def HYPERVISOR_grant_table_op : Nat := 20
/-- Hypercall opcode HYPERVISOR_vm_assist. -/
def HYPERVISOR_vm_assist : Nat := 21
/-- Hypercall opcode HYPERVISOR_vcpu_op. -/
def HYPERVISOR_vcpu_op : Nat := 24
/-- Hypercall opcode HYPERVISOR_xsm_op. -/
def HYPERVISOR_xsm_op : Nat := 27
/-- Hypercall opcode HYPERVISOR_platform_op. -/
def HYPERVISOR_platform_op : Nat := 29
/-- Hypercall opcode HYPERVISOR_event_channel_op. -/
def HYPERVISOR_event_channel_op : Nat := 32
/-- Hypercall opcode HYPERVISOR_physdev_op. -/
def HYPERVISOR_physdev_op : Nat := 33
/-- Hypercall opcode HYPERVISOR_hvm_op. -/
def HYPERVISOR_hvm_op : Nat := 34
/-- Hypercall opcode HYPERVISOR_sysctl. -/
def HYPERVISOR_sysctl : Nat := 35
/-- Hypercall opcode HYPERVISOR_domctl. -/
def HYPERVISOR_domctl : Nat := 36

/-- xen::handle_physdev_op, lines 257-269: the whole switch is inside a
try / catchall that returns false.  PHYSDEVOP_pci_device_add = 25. -/
def handle_physdev_op (e : XenEnv) (r : XenRegs) (st : XenSt) : HRes :=
  catchall
    (match r.rdi with
     | 25 => liftB e.physdev_pci_device_add st
     | _ => .ok (false, st)) st

/-- xen::handle_memory_op, lines 301-323: try / catchall around the
switch; both the default break and the catch end in return false.
XENMEM sub-ops: memory_map 9, add_to_physmap 7, decrease_reservation 1,
get_sharing_freed_pages 18, get_sharing_shared_pages 19. -/
def handle_memory_op (e : XenEnv) (r : XenRegs) (st : XenSt) : HRes :=
  catchall
    (match r.rdi with
     | 9 => liftB e.xenmem_memory_map st
     | 7 => liftB e.xenmem_add_to_physmap st
     | 1 => liftB e.xenmem_decrease_reservation st
     | 18 => liftB e.xenmem_get_sharing_freed_pages st
     | 19 => liftB e.xenmem_get_sharing_shared_pages st
     | _ => .ok (false, st)) st

/-- xen::handle_xen_version, lines 325-357: try / catchall around the
switch.  XENVER sub-ops 0..10 in declaration order. -/
def handle_xen_version (e : XenEnv) (r : XenRegs) (st : XenSt) : HRes :=
  catchall
    (match r.rdi with
     | 0 => liftB e.xenver_version st
     | 1 => liftB e.xenver_extraversion st
     | 2 => liftB e.xenver_compile_info st
     | 3 => liftB e.xenver_capabilities st
     | 4 => liftB e.xenver_changeset st
     | 5 => liftB e.xenver_platform_parameters st
     | 6 => liftB e.xenver_get_features st
     | 7 => liftB e.xenver_pagesize st
     | 8 => liftB e.xenver_guest_handle st
     | 9 => liftB e.xenver_commandline st
     | 10 => liftB e.xenver_build_id st
     | _ => .ok (false, st)) st

/-- xen::handle_event_channel_op, lines 434-464: try / catchall around
the switch.  EVTCHNOP sub-ops: bind_interdomain 0, bind_virq 1, close 3,
send 4, alloc_unbound 6, bind_vcpu 8, init_control 11, expand_array 12,
set_priority 13. -/
def handle_event_channel_op (e : XenEnv) (r : XenRegs) (st : XenSt) : HRes :=
  catchall
    (match r.rdi with
     | 11 => liftB e.evtchn_init_control st
     | 13 => liftB e.evtchn_set_priority st
     | 6 => liftB e.evtchn_alloc_unbound st
     | 12 => liftB e.evtchn_expand_array st
     | 1 => liftB e.evtchn_bind_virq st
     | 4 => liftB e.evtchn_send st
     | 0 => liftB e.evtchn_bind_interdomain st
     | 3 => liftB e.evtchn_close st
     | 8 => liftB e.evtchn_bind_vcpu st
     | _ => .ok (false, st)) st

/-- xen::handle_grant_table_op, lines 478-492: try / catchall around the
switch.  GNTTABOP_query_size = 6, GNTTABOP_set_version = 8. -/
def handle_grant_table_op (e : XenEnv) (r : XenRegs) (st : XenSt) : HRes :=
  catchall
    (match r.rdi with
     | 6 => liftB e.gnttab_query_size st
     | 8 => liftB e.gnttab_set_version st
     | _ => .ok (false, st)) st

/-- xen::handle_sysctl, lines 466-470: map_arg of rdi followed by the
sysctl sub-handler.  There is no try / catchall here: both the mapping
fault and an exception inside the sub-handler propagate to the caller. -/
def handle_sysctl (e : XenEnv) (st : XenSt) : HRes :=
  match e.sysctl_map with
  | .error f => .error f
  | .ok _ => liftB e.sysctl_handle st

/-- xen::handle_domctl, lines 472-476: same shape as handle_sysctl, and
likewise not wrapped. -/
def handle_domctl (e : XenEnv) (st : XenSt) : HRes :=
  match e.domctl_map with
  | .error f => .error f
  | .ok _ => liftB e.domctl_handle st

/-- xen::handle_console_io, lines 271-299: expects(m_dom->initdom()), a
guest-memory mapping of the buffer, then the read/write switch setting
rax to the transferred byte count.  CONSOLEIO_write = 0, CONSOLEIO_read
= 1.  Not wrapped: the contract check and mapping faults propagate. -/
def handle_console_io (e : XenEnv) (r : XenRegs) (st : XenSt) : HRes :=
  match expects e.initdom with
  | .error f => .error f
  | .ok _ =>
    match e.console_map with
    | .error f => .error f
    | .ok _ =>
      match r.rdi with
      | 1 =>
        match e.hvc_rx_get with
        | .error f => .error f
        | .ok n => .ok (true, { st with rax_out := n })
      | 0 =>
        match e.hvc_tx_put with
        | .error f => .error f
        | .ok n => .ok (true, { st with rax_out := n })
      | _ => .ok (false, st)

/-- valid_cb_via, lines 359-372: the callback-via value must have type
HVM_PARAM_CALLBACK_TYPE_VECTOR (2) in bits 56-63 and a vector in
0x20..0xFF in the low byte. -/
def valid_cb_via (via : Nat) : Bool :=
  let t := (via &&& (0xFF <<< 56)) >>> 56
  if t ≠ 2 then false
  else
    let vec := via &&& 0xFF
    if vec < 0x20 ∨ vec > 0xFF then false else true

/-- xen::handle_hvm_op, lines 374-432.  HVMOP_set_param (0) is wrapped in
its own try / catchall; HVMOP_get_param (1) is not, and its body is
expects(!m_dom->initdom()) followed by rax := -ENOSYS (the mapping code
is commented out in the source); HVMOP_pagetable_dying (9) sets
rax := -ENOSYS.  HVM_PARAM_CALLBACK_IRQ = 0. -/
def handle_hvm_op (e : XenEnv) (r : XenRegs) (st : XenSt) : HRes :=
  match r.rdi with
  | 0 =>
    catchall
      (match e.hvm_param_map with
       | .error f => .error f
       | .ok arg =>
         match arg.index with
         | 0 =>
           if valid_cb_via arg.value then
             match e.evtchn_set_callback_via with
             | .error f => .error f
             | .ok _ => .ok (true, { st with rax_out := 0 })
           else .ok (true, { st with rax_out := neg64 EINVAL })
         | _ => .ok (false, st)) st
  | 1 =>
    match expects (!e.initdom) with
    | .error f => .error f
    | .ok _ => .ok (true, { st with rax_out := neg64 ENOSYS })
  | 9 => .ok (true, { st with rax_out := neg64 ENOSYS })
  | _ => .ok (false, st)

/-- XENPF_INTERFACE_VERSION. -/
def XENPF_INTERFACE_VERSION : Nat := 0x03000001
/-- XENPF_get_cpuinfo. -/
def XENPF_get_cpuinfo : Nat := 55
/-- XENPF_settime64. -/
def XENPF_settime64 : Nat := 62
/-- XEN_PCPU_FLAGS_ONLINE. -/
def XEN_PCPU_FLAGS_ONLINE : Nat := 1

/-- xen::handle_platform_op, lines 510-543: map_arg of rdi (not
wrapped), interface-version gate returning -EACCES, then the command
switch.  XENPF_get_cpuinfo asserts initdom and fills the pcpu_info
fields of the guest structure (max_present = 1, flags = ONLINE, the
instance apicid/acpiid); XENPF_settime64 validates mbz then runs
update_wallclock on the shared-info wallclock. -/
def handle_platform_op (e : XenEnv) (_r : XenRegs) (st : XenSt) : HRes :=
  match e.plat_map with
  | .error f => .error f
  | .ok xpf =>
    if xpf.interface_version ≠ XENPF_INTERFACE_VERSION then
      .ok (true, { st with rax_out := neg64 EACCES })
    else
      match xpf.cmd with
      | 55 =>
        match expects e.initdom with
        | .error f => .error f
        | .ok _ =>
          .ok (true, { st with
            pcpu_written := some (1, XEN_PCPU_FLAGS_ONLINE, st.apicid, st.acpiid)
            rax_out := 0 })
      | 62 =>
        if xpf.mbz ≠ 0 then .ok (true, { st with rax_out := neg64 EINVAL })
        else
          .ok (true, { st with
            wc := update_wallclock st.wc xpf.secs xpf.nsecs xpf.system_time
            rax_out := 0 })
      | _ => .ok (false, st)

/-- XEN_FLASK_INTERFACE_VERSION. -/
def XEN_FLASK_INTERFACE_VERSION : Nat := 1

/-- xen::handle_xsm_op, lines 545-565: expects(m_dom->initdom()), map_arg
of rdi (neither wrapped), interface-version gate returning -EACCES, then
a switch whose FLASK_SID_TO_CONTEXT (5) and default arms are both
observationally empty, falling through to rax := -EACCES, return true. -/
def handle_xsm_op (e : XenEnv) (_r : XenRegs) (st : XenSt) : HRes :=
  match expects e.initdom with
  | .error f => .error f
  | .ok _ =>
    match e.flask_map with
    | .error f => .error f
    | .ok flop =>
      if flop.interface_version ≠ XEN_FLASK_INTERFACE_VERSION then
        .ok (true, { st with rax_out := neg64 EACCES })
      else
        .ok (true, { st with rax_out := neg64 EACCES })

/-- xen::handle_vcpu_op, lines 603-647.  The very first statement is
expects(m_vcpu->rsi() == vcpuid): the vcpu-id register is checked against
the instance vcpuid before any sub-operation dispatch.  VCPUOP sub-ops:
stop_periodic_timer 7, set_singleshot_timer 8, stop_singleshot_timer 9,
register_runstate_memory_area 5, register_vcpu_time_memory_area 13.  The
set_singleshot arm stores the set_timer result in rax and lazily installs
the timer exit handlers once. -/
def handle_vcpu_op (e : XenEnv) (r : XenRegs) (st : XenSt) : HRes :=
  match expects (r.rsi == st.vcpuid) with
  | .error f => .error f
  | .ok _ =>
    match r.rdi with
    | 7 => .ok (true, { st with rax_out := 0 })
    | 9 => .ok (true, { stop_timer st with rax_out := 0 })
    | 8 =>
      match set_timer e st with
      | .error f => .error f
      | .ok p =>
        let st2 := { p.2 with rax_out := intToU64 p.1 }
        .ok (true, if st2.pet_hdlrs_added then st2 else { st2 with pet_hdlrs_added := true })
    | 13 =>
      match expects st.shinfo_present with
      | .error f => .error f
      | .ok _ =>
        match e.tma_map with
        | .error f => .error f
        | .ok _ =>
          match e.user_vti_map with
          | .error f => .error f
          | .ok _ => .ok (true, { st with user_vti := some st.vti, rax_out := 0 })
    | 5 =>
      match e.rma_map with
      | .error f => .error f
      | .ok area => .ok (true, { register_runstate st area with rax_out := 0 })
    | _ => .ok (false, st)

/-- xen::handle_vm_assist, lines 649-663: only VMASST_CMD_enable (0) of
VMASST_TYPE_runstate_update_flag (5) is handled; it sets the
m_runstate_assist flag and rax := 0. -/
def handle_vm_assist (_e : XenEnv) (r : XenRegs) (st : XenSt) : HRes :=
  if r.rdi ≠ 0 then .ok (false, st)
  else
    match r.rsi with
    | 5 => .ok (true, { st with runstate_assist := true, rax_out := 0 })
    | _ => .ok (false, st)

/-- xen::hypercall, lines 863-906: the vmcall entry point.  The leading
diagnostic printf block (lines 865-874) has no effect on guest-visible
state and is elided.  The opcode switch routes to the sub-handlers; an
unrecognized opcode returns false.  Note that the dispatcher itself has
no try / catchall: whatever a sub-handler throws propagates out. -/
def hypercall (e : XenEnv) (r : XenRegs) (st : XenSt) : HRes :=
  match r.rax with
  | 12 => handle_memory_op e r st
  | 17 => handle_xen_version e r st
  | 34 => handle_hvm_op e r st
  | 32 => handle_event_channel_op e r st
  | 20 => handle_grant_table_op e r st
  | 29 => handle_platform_op e r st
  | 18 => handle_console_io e r st
  | 35 => handle_sysctl e st
  | 36 => handle_domctl e st
  | 27 => handle_xsm_op e r st
  | 33 => handle_physdev_op e r st
  | 24 => handle_vcpu_op e r st
  | 21 => handle_vm_assist e r st
  | _ => .ok (false, st)

/-- Fold of update_runstate over a list of (new_state, fresh TSC) inputs:
the sequence of runstate transitions after some initial state. -/
def run_updates (st : XenSt) : List (Nat × Nat) → XenSt
  | [] => st
  | (s, t) :: rest => run_updates (update_runstate st s t) rest

/-- Boundedness of the system times produced along a sequence of
update_runstate calls: every freshly computed system_time stays below
2^63, i.e. clear of the XEN_RUNSTATE_UPDATE marker bit. -/
def trace_ok (st : XenSt) : List (Nat × Nat) → Prop
  | [] => True
  | (s, t) :: rest =>
    next_system_time st t < 2^63 ∧ trace_ok (update_runstate st s t) rest

/-- Accounting invariant of the runstate area: once registered, the sum
of the four accumulators stays congruent (mod 2^64) to the entry
timestamp of the current state.  Registration seeds time[running] with
the registration-time system_time, so this is equivalent to: accumulator
sum plus elapsed-in-current-state equals the current system_time. -/
def sum_entry_inv (st : XenSt) : Prop :=
  ∀ rs, st.runstate = some rs → sumTime rs ≡ rs.state_entry_time [MOD 2^64]

/-- A default oracle environment for concrete evaluations: a
non-management domain, every collaborator call returning false (not
handled) and every mapping returning zeroed content. -/
def env0 : XenEnv :=
  { initdom := false
    physdev_pci_device_add := .ok false
    xenmem_memory_map := .ok false
    xenmem_add_to_physmap := .ok false
    xenmem_decrease_reservation := .ok false
    xenmem_get_sharing_freed_pages := .ok false
    xenmem_get_sharing_shared_pages := .ok false
    xenver_version := .ok false
    xenver_extraversion := .ok false
    xenver_compile_info := .ok false
    xenver_capabilities := .ok false
    xenver_changeset := .ok false
    xenver_platform_parameters := .ok false
    xenver_get_features := .ok false
    xenver_pagesize := .ok false
    xenver_guest_handle := .ok false
    xenver_commandline := .ok false
    xenver_build_id := .ok false
    evtchn_init_control := .ok false
    evtchn_set_priority := .ok false
    evtchn_alloc_unbound := .ok false
    evtchn_expand_array := .ok false
    evtchn_bind_virq := .ok false
    evtchn_send := .ok false
    evtchn_bind_interdomain := .ok false
    evtchn_close := .ok false
    evtchn_bind_vcpu := .ok false
    evtchn_set_callback_via := .ok ()
    gnttab_query_size := .ok false
    gnttab_set_version := .ok false
    sysctl_map := .ok ()
    sysctl_handle := .ok false
    domctl_map := .ok ()
    domctl_handle := .ok false
    console_map := .ok ()
    hvc_rx_get := .ok 0
    hvc_tx_put := .ok 0
    hvm_param_map := .ok { index := 0, value := 0 }
    plat_map := .ok { interface_version := XENPF_INTERFACE_VERSION, cmd := 55, mbz := 0, secs := 0, nsecs := 0, system_time := 0 }
    flask_map := .ok { interface_version := XEN_FLASK_INTERFACE_VERSION, cmd := 5 }
    sst_map := .ok { timeout_abs_ns := 0, flags := 0 }
    tma_map := .ok ()
    user_vti_map := .ok ()
    rma_map := .ok { state := 0, state_entry_time := 0, t0 := 0, t1 := 0, t2 := 0, t3 := 0 } }

/-- A default concrete instance state for evaluations. -/
def st0 : XenSt :=
  { rax_out := 0
    shinfo_present := true
    wc := { wc_version := 0, wc_sec := 0, wc_sec_hi := 0, wc_nsec := 0 }
    vti := { version := 0, tsc_timestamp := 0, system_time := 0,
             tsc_to_system_mul := 2^31, tsc_shift := 0 }
    user_vti := none
    runstate := none
    runstate_assist := false
    pet_enabled := false
    pet_value := 0
    pet_shift := 3
    pet_hdlrs_added := false
    domid := 1
    vcpuid := 0
    apicid := 0
    acpiid := 0
    pcpu_written := none }

/-! Helper lemmas shared by several results. -/

/-- A catchall-wrapped computation never propagates an exception. -/
theorem catchall_isOk (x : HRes) (st : XenSt) :
    ∃ b st2, catchall x st = .ok (b, st2) := by
  match x with
  | .error f => exact ⟨false, st, rfl⟩
  | .ok (b, s) => exact ⟨b, s, rfl⟩

/-- Adding d to any accumulator slot adds d to the sum, mod 2^64. -/
theorem sumTime_addTime (rs : RunstateInfo) (i d : Nat) :
    sumTime (rs.addTime i d) ≡ sumTime rs + d [MOD 2^64] := by
  match i with
  | 0 => simp only [RunstateInfo.addTime, sumTime, Nat.ModEq]; omega
  | 1 => simp only [RunstateInfo.addTime, sumTime, Nat.ModEq]; omega
  | 2 => simp only [RunstateInfo.addTime, sumTime, Nat.ModEq]; omega
  | n + 3 => simp only [RunstateInfo.addTime, sumTime, Nat.ModEq]; omega

/-- The XEN_RUNSTATE_UPDATE marker protocol is the identity on a
system_time below 2^63: setting bit 63, or-ing the value in, then
clearing bit 63 leaves exactly the value. -/
theorem runstate_entry_mask (s : Nat) (h : s < 2^63) :
    (XEN_RUNSTATE_UPDATE ||| s) &&& (2^63 - 1) = s := by
  apply Nat.eq_of_testBit_eq
  intro i
  rw [Nat.testBit_land, Nat.testBit_lor, Nat.testBit_two_pow_sub_one]
  by_cases hi : i < 63
  · have hbit : Nat.testBit XEN_RUNSTATE_UPDATE i = false :=
      Nat.testBit_two_pow_of_ne (by omega)
    simp [hbit, hi]
  · have h1 : Nat.testBit s i = false :=
      Nat.testBit_lt_two_pow (lt_of_lt_of_le h (Nat.pow_le_pow_right (by norm_num) (by omega)))
    simp [h1, hi]

/-- Wraparound cancellation: b + (a - b) recovers a, mod 2^64. -/
theorem sub64_cancel (a b : Nat) : b + sub64 a b ≡ a [MOD 2^64] := by
  simp only [sub64, Nat.ModEq]
  omega

/-! Claim C1. -/

/-- Claim C1 counterexample: a guest-memory fault raised while mapping
the sysctl control structure propagates out of xen::hypercall instead of
being converted to a boolean false return — handle_sysctl (lines
466-470) has no try / catchall, unlike the memory, version, evtchn,
gnttab and physdev groups. -/
theorem hypercall_sysctl_exception_escapes :
    hypercall { env0 with sysctl_map := .error .guestFault }
        { rax := 35, rdi := 0, rsi := 0, rdx := 0 } st0 = .error .guestFault ∧
    ∀ st2, hypercall { env0 with sysctl_map := .error .guestFault }
        { rax := 35, rdi := 0, rsi := 0, rdx := 0 } st0 ≠ .ok (false, st2) := by
  refine ⟨rfl, fun st2 h => ?_⟩
  exact Except.noConfusion h

/-- Claim C1 amended: exception containment holds for the sub-handlers
that are wrapped in try / catchall — the memory-op, xen-version,
event-channel, grant-table and physdev groups never propagate an
exception, for every oracle outcome — but not for the dispatcher as a
whole: for sysctl (likewise domctl, console-io, platform-op, xsm-op,
hvm-op get_param and vcpu-op) a sub-handler exception propagates out of
xen::hypercall. -/
theorem hypercall_containment_amended (e : XenEnv) (r : XenRegs) (st : XenSt) :
    ((r.rax = HYPERVISOR_memory_op ∨ r.rax = HYPERVISOR_xen_version ∨
      r.rax = HYPERVISOR_event_channel_op ∨ r.rax = HYPERVISOR_grant_table_op ∨
      r.rax = HYPERVISOR_physdev_op) →
      ∃ b st2, hypercall e r st = .ok (b, st2)) ∧
    (r.rax = HYPERVISOR_hvm_op → r.rdi = 0 →
      ∃ b st2, hypercall e r st = .ok (b, st2)) ∧
    (r.rax = HYPERVISOR_sysctl → ∀ f, e.sysctl_map = .error f →
      hypercall e r st = .error f) ∧
    (r.rax = HYPERVISOR_domctl → ∀ f, e.domctl_map = .error f →
      hypercall e r st = .error f) ∧
    (r.rax = HYPERVISOR_console_io → e.initdom = true → ∀ f, e.console_map = .error f →
      hypercall e r st = .error f) ∧
    (r.rax = HYPERVISOR_platform_op → ∀ f, e.plat_map = .error f →
      hypercall e r st = .error f) ∧
    (r.rax = HYPERVISOR_xsm_op → e.initdom = true → ∀ f, e.flask_map = .error f →
      hypercall e r st = .error f) ∧
    (r.rax = HYPERVISOR_hvm_op → r.rdi = 1 → e.initdom = true →
      hypercall e r st = .error .contract) ∧
    (r.rax = HYPERVISOR_vcpu_op → r.rdi = 8 → r.rsi = st.vcpuid →
      ∀ f, e.sst_map = .error f → hypercall e r st = .error f) := by
  obtain ⟨rax, rdi, rsi, rdx⟩ := r
  refine ⟨?_, ?_, ?_, ?_, ?_, ?_, ?_, ?_, ?_⟩
  · intro h
    rcases h with h | h | h | h | h <;>
      · simp only at h
        subst h
        exact catchall_isOk _ _
  · intro h hd
    simp only at h hd
    subst h; subst hd
    exact catchall_isOk _ _
  · intro h f hf
    simp only at h
    subst h
    simp [hypercall, HYPERVISOR_sysctl, handle_sysctl, hf]
  · intro h f hf
    simp only at h
    subst h
    simp [hypercall, HYPERVISOR_domctl, handle_domctl, hf]
  · intro h hi f hf
    simp only at h
    subst h
    simp [hypercall, HYPERVISOR_console_io, handle_console_io, expects, hi, hf]
  · intro h f hf
    simp only at h
    subst h
    simp [hypercall, HYPERVISOR_platform_op, handle_platform_op, hf]
  · intro h hi f hf
    simp only at h
    subst h
    simp [hypercall, HYPERVISOR_xsm_op, handle_xsm_op, expects, hi, hf]
  · intro h hd hi
    simp only at h hd
    subst h; subst hd
    simp [hypercall, HYPERVISOR_hvm_op, handle_hvm_op, expects, hi]
  · intro h hd hs f hf
    simp only at h hd hs
    subst h; subst hd
    simp [hypercall, HYPERVISOR_vcpu_op, handle_vcpu_op, expects, hs, set_timer, hf]

/-- Witness for the amended C1 theorem at concrete inputs: one
containment instance per wrapped region and one propagating exception
per unwrapped path. -/
theorem hypercall_containment_amended_witness :
    (∃ b st2, hypercall env0 { rax := 12, rdi := 9, rsi := 0, rdx := 0 } st0 = .ok (b, st2)) ∧
    (∃ b st2, hypercall env0 { rax := 34, rdi := 0, rsi := 0, rdx := 0 } st0 = .ok (b, st2)) ∧
    hypercall { env0 with sysctl_map := .error .contract }
      { rax := 35, rdi := 0, rsi := 0, rdx := 0 } st0 = .error .contract ∧
    hypercall { env0 with domctl_map := .error .guestFault }
      { rax := 36, rdi := 0, rsi := 0, rdx := 0 } st0 = .error .guestFault ∧
    hypercall { env0 with initdom := true, console_map := .error .guestFault }
      { rax := 18, rdi := 1, rsi := 0, rdx := 0 } st0 = .error .guestFault ∧
    hypercall { env0 with plat_map := .error .guestFault }
      { rax := 29, rdi := 0, rsi := 0, rdx := 0 } st0 = .error .guestFault ∧
    hypercall { env0 with initdom := true, flask_map := .error .guestFault }
      { rax := 27, rdi := 0, rsi := 0, rdx := 0 } st0 = .error .guestFault ∧
    hypercall { env0 with initdom := true }
      { rax := 34, rdi := 1, rsi := 0, rdx := 0 } st0 = .error .contract ∧
    hypercall { env0 with sst_map := .error .guestFault }
      { rax := 24, rdi := 8, rsi := 0, rdx := 0 } st0 = .error .guestFault := by
  refine ⟨?_, ?_, ?_, ?_, ?_, ?_, ?_, ?_, ?_⟩
  · exact (hypercall_containment_amended env0
      { rax := 12, rdi := 9, rsi := 0, rdx := 0 } st0).1 (Or.inl rfl)
  · exact (hypercall_containment_amended env0
      { rax := 34, rdi := 0, rsi := 0, rdx := 0 } st0).2.1 rfl rfl
  · exact (hypercall_containment_amended { env0 with sysctl_map := .error .contract }
      { rax := 35, rdi := 0, rsi := 0, rdx := 0 } st0).2.2.1 rfl .contract rfl
  · exact (hypercall_containment_amended { env0 with domctl_map := .error .guestFault }
      { rax := 36, rdi := 0, rsi := 0, rdx := 0 } st0).2.2.2.1 rfl .guestFault rfl
  · exact (hypercall_containment_amended
      { env0 with initdom := true, console_map := .error .guestFault }
      { rax := 18, rdi := 1, rsi := 0, rdx := 0 } st0).2.2.2.2.1 rfl rfl .guestFault rfl
  · exact (hypercall_containment_amended { env0 with plat_map := .error .guestFault }
      { rax := 29, rdi := 0, rsi := 0, rdx := 0 } st0).2.2.2.2.2.1 rfl .guestFault rfl
  · exact (hypercall_containment_amended
      { env0 with initdom := true, flask_map := .error .guestFault }
      { rax := 27, rdi := 0, rsi := 0, rdx := 0 } st0).2.2.2.2.2.2.1 rfl rfl .guestFault rfl
  · exact (hypercall_containment_amended { env0 with initdom := true }
      { rax := 34, rdi := 1, rsi := 0, rdx := 0 } st0).2.2.2.2.2.2.2.1 rfl rfl rfl
  · exact (hypercall_containment_amended { env0 with sst_map := .error .guestFault }
      { rax := 24, rdi := 8, rsi := 0, rdx := 0 } st0).2.2.2.2.2.2.2.2 rfl rfl rfl
      .guestFault rfl

/-! Claim C2. -/

/-- Claim C2 counterexample: HVMOP_get_param does not assert that the
caller is the management domain — it asserts the opposite,
expects(!m_dom->initdom()) (line 397).  A non-management caller passes
the check and receives the recoverable status -ENOSYS, while a
management-domain caller is the one that trips the contract. -/
theorem hvm_get_param_nonmgmt_counterexample :
    handle_hvm_op env0 { rax := 34, rdi := 1, rsi := 0, rdx := 0 } st0 =
      .ok (true, { st0 with rax_out := neg64 ENOSYS }) ∧
    handle_hvm_op { env0 with initdom := true }
      { rax := 34, rdi := 1, rsi := 0, rdx := 0 } st0 = .error .contract := by
  exact ⟨rfl, rfl⟩

/-- Claim C2 amended: console-io, the XSM op and platform-op
XENPF_get_cpuinfo do assert initdom as a precondition, failing with a
contract violation for every non-management caller; HVMOP_get_param
instead asserts that the caller is NOT the management domain, so a
non-management invocation of it succeeds with -ENOSYS and a management
invocation is the contract breach. -/
theorem admin_domain_asserts_amended (e : XenEnv) (r : XenRegs) (st : XenSt) :
    (e.initdom = false → handle_console_io e r st = .error .contract) ∧
    (e.initdom = false → handle_xsm_op e r st = .error .contract) ∧
    (∀ xpf, e.initdom = false → e.plat_map = .ok xpf →
      xpf.interface_version = XENPF_INTERFACE_VERSION → xpf.cmd = XENPF_get_cpuinfo →
      handle_platform_op e r st = .error .contract) ∧
    (e.initdom = true → r.rdi = 1 → handle_hvm_op e r st = .error .contract) ∧
    (e.initdom = false → r.rdi = 1 →
      handle_hvm_op e r st = .ok (true, { st with rax_out := neg64 ENOSYS })) := by
  refine ⟨?_, ?_, ?_, ?_, ?_⟩
  · intro h; simp [handle_console_io, expects, h]
  · intro h; simp [handle_xsm_op, expects, h]
  · intro xpf h hm hv hc
    have hc55 : xpf.cmd = 55 := hc
    simp [handle_platform_op, hm, hv, hc55, expects, h]
  · intro h hd; simp [handle_hvm_op, hd, expects, h]
  · intro h hd; simp [handle_hvm_op, hd, expects, h]

/-- Witness for the amended C2 theorem at concrete inputs. -/
theorem admin_domain_asserts_amended_witness :
    handle_console_io env0 { rax := 18, rdi := 0, rsi := 0, rdx := 0 } st0 = .error .contract ∧
    handle_xsm_op env0 { rax := 27, rdi := 0, rsi := 0, rdx := 0 } st0 = .error .contract ∧
    handle_platform_op env0 { rax := 29, rdi := 0, rsi := 0, rdx := 0 } st0 = .error .contract ∧
    handle_hvm_op { env0 with initdom := true }
      { rax := 34, rdi := 1, rsi := 0, rdx := 0 } st0 = .error .contract := by
  have h := admin_domain_asserts_amended env0 { rax := 18, rdi := 0, rsi := 0, rdx := 0 } st0
  have h2 := admin_domain_asserts_amended env0 { rax := 27, rdi := 0, rsi := 0, rdx := 0 } st0
  have h3 := admin_domain_asserts_amended env0 { rax := 29, rdi := 0, rsi := 0, rdx := 0 } st0
  have h4 := admin_domain_asserts_amended { env0 with initdom := true }
    { rax := 34, rdi := 1, rsi := 0, rdx := 0 } st0
  exact ⟨h.1 rfl, h2.2.1 rfl,
    h3.2.2.1 { interface_version := XENPF_INTERFACE_VERSION, cmd := 55, mbz := 0,
               secs := 0, nsecs := 0, system_time := 0 } rfl rfl rfl rfl,
    h4.2.2.2.1 rfl rfl⟩

/-! Claim C3. -/

/-- Claim C3 (code bug evidence): the emulated CPUID leaf base+1 writes
rax = 0x00040D00 — with XEN_MINOR misplaced at bit 8 — and not the Xen
ABI encoding (XEN_MAJOR << 16) | XEN_MINOR = 0x0004000D that the spec
states and that guests decode as major = rax >> 16, minor = rax &
0xFFFF (this build would present itself as version 4.3328); rbx, rcx
and rdx are zero as claimed. -/
theorem xen_leaf1_version_encoding_bug :
    (xen_leaf1 { rax := 0, rbx := 0, rcx := 0, rdx := 0 }).rax = 0x00040D00 ∧
    ((XEN_MAJOR <<< 16) ||| XEN_MINOR) = 0x0004000D ∧
    (xen_leaf1 { rax := 0, rbx := 0, rcx := 0, rdx := 0 }).rax ≠
      ((XEN_MAJOR <<< 16) ||| XEN_MINOR) ∧
    (xen_leaf1 { rax := 0, rbx := 0, rcx := 0, rdx := 0 }).rbx = 0 ∧
    (xen_leaf1 { rax := 0, rbx := 0, rcx := 0, rdx := 0 }).rcx = 0 ∧
    (xen_leaf1 { rax := 0, rbx := 0, rcx := 0, rdx := 0 }).rdx = 0 := by
  exact ⟨rfl, by decide, by decide, rfl, rfl, rfl⟩

/-! Claim C5. -/

/-- Claim C5: set_timer case analysis.  With the mapped singleshot
argument sst: a deadline strictly below the current system_time together
with the VCPU_SSHOTTMR_future flag returns -ETIME and leaves the state
(including m_pet_enabled and the programmed tick count) unchanged; the
same past deadline without the flag programs zero ticks and arms the
timer; a strictly future deadline converts deadline - system_time
through ns_to_tsc and tsc_to_pet, programs that value and arms the
timer, returning 0. -/
theorem set_timer_spec (e : XenEnv) (st : XenSt) (sst : SstArg)
    (hm : e.sst_map = .ok sst) :
    (sst.timeout_abs_ns < st.vti.system_time →
      sst.flags &&& VCPU_SSHOTTMR_future ≠ 0 →
      set_timer e st = .ok (-(ETIME : Int), st)) ∧
    (sst.timeout_abs_ns < st.vti.system_time →
      sst.flags &&& VCPU_SSHOTTMR_future = 0 →
      set_timer e st = .ok (0, { st with pet_value := 0, pet_enabled := true })) ∧
    (st.vti.system_time < sst.timeout_abs_ns →
      set_timer e st = .ok (0, { st with
        pet_value := tsc_to_pet
          (ns_to_tsc (sst.timeout_abs_ns - st.vti.system_time)
            st.vti.tsc_shift st.vti.tsc_to_system_mul) st.pet_shift
        pet_enabled := true })) := by
  refine ⟨?_, ?_, ?_⟩
  · intro h1 h2
    simp only [set_timer, hm]
    rw [if_pos (Nat.le_of_lt h1), if_pos h2]
  · intro h1 h2
    simp only [set_timer, hm]
    rw [if_pos (Nat.le_of_lt h1), if_neg (by simp [h2])]
  · intro h1
    simp only [set_timer, hm]
    rw [if_neg (not_le.mpr h1)]

/-- Witness for the C5 theorem at concrete inputs: system_time 10 with
deadline 5 (past) under both flag values, and deadline 2^40 (future). -/
theorem set_timer_spec_witness :
    set_timer { env0 with sst_map := .ok { timeout_abs_ns := 5, flags := 1 } }
      { st0 with vti := { st0.vti with system_time := 10 } } =
      .ok (-(ETIME : Int), { st0 with vti := { st0.vti with system_time := 10 } }) ∧
    set_timer { env0 with sst_map := .ok { timeout_abs_ns := 5, flags := 0 } }
      { st0 with vti := { st0.vti with system_time := 10 } } =
      .ok (0, { st0 with
                vti := { st0.vti with system_time := 10 }
                pet_value := 0
                pet_enabled := true }) ∧
    set_timer { env0 with sst_map := .ok { timeout_abs_ns := 2^40, flags := 1 } }
      { st0 with vti := { st0.vti with system_time := 10 } } =
      .ok (0, { st0 with
                vti := { st0.vti with system_time := 10 }
                pet_value := tsc_to_pet (ns_to_tsc (2^40 - 10) 0 (2^31)) 3
                pet_enabled := true }) := by
  refine ⟨?_, ?_, ?_⟩
  · exact (set_timer_spec { env0 with sst_map := .ok { timeout_abs_ns := 5, flags := 1 } }
      { st0 with vti := { st0.vti with system_time := 10 } }
      { timeout_abs_ns := 5, flags := 1 } rfl).1 (by decide) (by decide)
  · exact (set_timer_spec { env0 with sst_map := .ok { timeout_abs_ns := 5, flags := 0 } }
      { st0 with vti := { st0.vti with system_time := 10 } }
      { timeout_abs_ns := 5, flags := 0 } rfl).2.1 (by decide) (by decide)
  · exact (set_timer_spec { env0 with sst_map := .ok { timeout_abs_ns := 2^40, flags := 1 } }
      { st0 with vti := { st0.vti with system_time := 10 } }
      { timeout_abs_ns := 2^40, flags := 1 } rfl).2.2 (by norm_num)

/-! Claim C10. -/

/-- Claim C10: handle_vcpu_op checks expects(rsi == vcpuid) before
dispatching any sub-operation, and make_xen_ids assigns vcpuid = 0 to
every domain; hence a vcpu-op naming any nonzero vcpu id raises the
contract-violation exception out of the handler, for every sub-opcode,
instead of returning false or a negative status. -/
theorem handle_vcpu_op_vcpuid_contract (e : XenEnv) (r : XenRegs) (st : XenSt)
    (hid : st.vcpuid = 0) (hr : r.rsi ≠ 0) :
    handle_vcpu_op e r st = .error .contract ∧
    (∀ f c, ((make_xen_ids f c).1).vcpuid = 0) := by
  constructor
  · have hb : (r.rsi == st.vcpuid) = false := by
      rw [hid]
      exact beq_eq_false_iff_ne.mpr hr
    simp [handle_vcpu_op, expects, hb]
  · intro f c
    cases f <;> simp [make_xen_ids]

/-- Witness for the C10 theorem: vcpu-op with rsi = 1 on an instance
whose vcpuid is 0 (as produced by the allocator). -/
theorem handle_vcpu_op_vcpuid_contract_witness :
    handle_vcpu_op env0 { rax := 24, rdi := 8, rsi := 1, rdx := 0 } st0 = .error .contract ∧
    ((make_xen_ids false 0).1).vcpuid = 0 := by
  have h := handle_vcpu_op_vcpuid_contract env0
    { rax := 24, rdi := 8, rsi := 1, rdx := 0 } st0 rfl (by decide)
  exact ⟨h.1, h.2 false 0⟩

/-! Claim C8. -/

/-- Claim C8: update_wallclock bumps wc_version once before and once
after the payload writes — starting even, the value the guest can see
between the two barriers is odd and the final value is even again, a net
+2 (as uint32) per call — and writes the payload as the split of the
uint64 delta d = secs*1e9 + nsecs - system_time into quotient seconds
(low and high 32-bit halves in wc_sec / wc_sec_hi) and remainder
nanoseconds (wc_nsec), by integer division by 1e9 that is exact:
1e9 * quotient + remainder = d. -/
theorem update_wallclock_spec (wc : WallClock) (secs nsecs system_time : Nat)
    (hv : 2 ∣ wc.wc_version) :
    (update_wallclock wc secs nsecs system_time).wc_version = (wc.wc_version + 2) % 2^32 ∧
    ¬ 2 ∣ ((wc.wc_version + 1) % 2^32) ∧
    2 ∣ (update_wallclock wc secs nsecs system_time).wc_version ∧
    (update_wallclock wc secs nsecs system_time).wc_sec =
      (sub64 ((s_to_ns secs + nsecs) % 2^64) system_time / 1000000000) % 2^32 ∧
    (update_wallclock wc secs nsecs system_time).wc_sec_hi =
      (sub64 ((s_to_ns secs + nsecs) % 2^64) system_time / 1000000000 / 2^32) % 2^32 ∧
    (update_wallclock wc secs nsecs system_time).wc_nsec =
      sub64 ((s_to_ns secs + nsecs) % 2^64) system_time % 1000000000 ∧
    1000000000 * (sub64 ((s_to_ns secs + nsecs) % 2^64) system_time / 1000000000) +
      sub64 ((s_to_ns secs + nsecs) % 2^64) system_time % 1000000000 =
      sub64 ((s_to_ns secs + nsecs) % 2^64) system_time := by
  have hd : sub64 ((s_to_ns secs + nsecs) % 2^64) system_time < 2^64 :=
    Nat.mod_lt _ (by norm_num)
  have he : sub64 ((s_to_ns secs + nsecs) % 2^64) system_time % 2^64 =
      sub64 ((s_to_ns secs + nsecs) % 2^64) system_time := Nat.mod_eq_of_lt hd
  have hm1 : (1000000000 : Nat) % 2^32 = 1000000000 := by norm_num
  refine ⟨?_, ?_, ?_, ?_, ?_, ?_, ?_⟩
  · simp only [update_wallclock]; omega
  · omega
  · simp only [update_wallclock]; omega
  · simp only [update_wallclock, do_div, he, hm1]
  · simp only [update_wallclock, do_div, he, hm1, Nat.shiftRight_eq_div_pow]
  · simp only [update_wallclock, do_div, he, hm1]; omega
  · omega

/-- Witness for the C8 theorem at a concrete input. -/
theorem update_wallclock_spec_witness :
    2 ∣ (4 : Nat) ∧
    (update_wallclock { wc_version := 4, wc_sec := 0, wc_sec_hi := 0, wc_nsec := 0 }
      7 500 3).wc_version = (4 + 2) % 2^32 ∧
    ¬ 2 ∣ ((4 + 1) % 2^32 : Nat) ∧
    (update_wallclock { wc_version := 4, wc_sec := 0, wc_sec_hi := 0, wc_nsec := 0 }
      7 500 3).wc_nsec = sub64 ((s_to_ns 7 + 500) % 2^64) 3 % 10^9 := by
  have h := update_wallclock_spec
    { wc_version := 4, wc_sec := 0, wc_sec_hi := 0, wc_nsec := 0 } 7 500 3 (by decide)
  exact ⟨by decide, h.1, h.2.1, h.2.2.2.2.2.1⟩

/-! Claim C9. -/

/-- Claim C9 counterexample: in a state with the shared-info page mapped
and a runstate area registered but no user time-info mirror,
update_runstate advances the kernel system_time (here from 0 to 2^31)
yet leaves the runstate area completely untouched — the early return for
the missing mirror (lines 690-692) skips the runstate sub-step too.  The
third conjunct shows the skipped step is observable: had it run, it
would have changed the area. -/
theorem runstate_step_skipped_counterexample :
    (update_runstate
      { st0 with runstate := some { state := 0, state_entry_time := 0,
                                    t0 := 0, t1 := 0, t2 := 0, t3 := 0 } }
      1 (2^32)).runstate =
      some { state := 0, state_entry_time := 0, t0 := 0, t1 := 0, t2 := 0, t3 := 0 } ∧
    (update_runstate
      { st0 with runstate := some { state := 0, state_entry_time := 0,
                                    t0 := 0, t1 := 0, t2 := 0, t3 := 0 } }
      1 (2^32)).vti.system_time = 2^31 ∧
    runstate_step { state := 0, state_entry_time := 0, t0 := 0, t1 := 0, t2 := 0, t3 := 0 }
      (2^31) false 1 ≠
      { state := 0, state_entry_time := 0, t0 := 0, t1 := 0, t2 := 0, t3 := 0 } := by
  refine ⟨rfl, rfl, by decide⟩

/-- Claim C9 amended: the three sub-steps of update_runstate
short-circuit in a cascade of early returns, not independently — a
missing shared-info page skips all three steps, and a missing user
time-info mirror skips both the mirror step and the runstate step; the
runstate sub-step executes exactly when the shared-info page, the user
mirror and the runstate area are all registered, in which case it
advances the previous-state accumulator by the elapsed time, stores the
new state and rewrites state_entry_time. -/
theorem update_runstate_cascade_amended (st : XenSt) (s t : Nat) :
    (st.shinfo_present = false → update_runstate st s t = st) ∧
    (st.shinfo_present = true → st.user_vti = none →
      (update_runstate st s t).runstate = st.runstate ∧
      (update_runstate st s t).vti.system_time = next_system_time st t) ∧
    (∀ uv rs, st.shinfo_present = true → st.user_vti = some uv → st.runstate = some rs →
      (update_runstate st s t).runstate =
        some (runstate_step rs (next_system_time st t) st.runstate_assist s)) := by
  refine ⟨?_, ?_, ?_⟩
  · intro h; simp [update_runstate, h]
  · intro h hu; simp [update_runstate, h, hu]
  · intro uv rs h hu hr; simp [update_runstate, h, hu, hr]

/-- Witness for the amended C9 theorem at concrete inputs. -/
theorem update_runstate_cascade_amended_witness :
    update_runstate { st0 with shinfo_present := false } 1 5 =
      { st0 with shinfo_present := false } ∧
    (update_runstate
      { st0 with runstate := some { state := 0, state_entry_time := 0,
                                    t0 := 0, t1 := 0, t2 := 0, t3 := 0 } }
      1 (2^32)).runstate =
      some { state := 0, state_entry_time := 0, t0 := 0, t1 := 0, t2 := 0, t3 := 0 } ∧
    (update_runstate
      { st0 with
        user_vti := some st0.vti
        runstate := some { state := 0, state_entry_time := 0,
                           t0 := 0, t1 := 0, t2 := 0, t3 := 0 } }
      1 (2^32)).runstate =
      some (runstate_step { state := 0, state_entry_time := 0,
                            t0 := 0, t1 := 0, t2 := 0, t3 := 0 }
        (next_system_time
          { st0 with
            user_vti := some st0.vti
            runstate := some { state := 0, state_entry_time := 0,
                               t0 := 0, t1 := 0, t2 := 0, t3 := 0 } }
          (2^32)) false 1) := by
  refine ⟨?_, ?_, ?_⟩
  · exact (update_runstate_cascade_amended { st0 with shinfo_present := false } 1 5).1 rfl
  · exact ((update_runstate_cascade_amended
      { st0 with runstate := some { state := 0, state_entry_time := 0,
                                    t0 := 0, t1 := 0, t2 := 0, t3 := 0 } }
      1 (2^32)).2.1 rfl rfl).1
  · exact (update_runstate_cascade_amended
      { st0 with
        user_vti := some st0.vti
        runstate := some { state := 0, state_entry_time := 0,
                           t0 := 0, t1 := 0, t2 := 0, t3 := 0 } }
      1 (2^32)).2.2 st0.vti
      { state := 0, state_entry_time := 0, t0 := 0, t1 := 0, t2 := 0, t3 := 0 }
      rfl rfl rfl

/-! Claim C4. -/

/-- Unfolding step: a management construction assigns the all-zero ids
and leaves the shared counter alone. -/
theorem nonmgmt_domids_cons_true (rest : List Bool) (c : Nat) :
    nonmgmt_domids (true :: rest) c = nonmgmt_domids rest c := rfl

/-- Unfolding step: a non-management construction takes the
pre-incremented counter (as uint32) as its domid and threads the new
counter value. -/
theorem nonmgmt_domids_cons_false (rest : List Bool) (c : Nat) :
    nonmgmt_domids (false :: rest) c =
      ((c + 1) % 2^32) :: nonmgmt_domids rest ((c + 1) % 2^32) := rfl

/-- Core allocation lemma, for a general starting counter: as long as
the counter cannot wrap, the non-management domids form the consecutive
block starting at c + 1. -/
theorem nonmgmt_domids_eq_range (l : List Bool) (c : Nat)
    (h : c + count_nonmgmt l < 2^32) :
    nonmgmt_domids l c = List.range' (c + 1) (count_nonmgmt l) := by
  induction l generalizing c with
  | nil => rfl
  | cons f rest ih =>
    cases f
    · have hc1 : c + 1 < 2^32 := by simp [count_nonmgmt] at h; omega
      have h2 : (c + 1) + count_nonmgmt rest < 2^32 := by
        simp [count_nonmgmt] at h; omega
      have hcount : count_nonmgmt (false :: rest) = count_nonmgmt rest + 1 := by
        simp [count_nonmgmt, Nat.add_comm]
      rw [nonmgmt_domids_cons_false, Nat.mod_eq_of_lt hc1, ih (c + 1) h2, hcount,
        List.range'_succ]
    · have h2 : c + count_nonmgmt rest < 2^32 := by
        simp [count_nonmgmt] at h; omega
      have hcount : count_nonmgmt (true :: rest) = count_nonmgmt rest := by
        simp [count_nonmgmt]
      rw [nonmgmt_domids_cons_true, ih c h2, hcount]

/-- Every construction in a sequence receives vcpuid = apicid = acpiid =
0, and a management construction receives the all-zero id record. -/
theorem alloc_ids_entries (l : List Bool) (c : Nat) :
    ∀ p ∈ ((alloc_ids l c).1).zip l,
      p.1.vcpuid = 0 ∧ p.1.apicid = 0 ∧ p.1.acpiid = 0 ∧
      (p.2 = true → p.1 = { domid := 0, vcpuid := 0, apicid := 0, acpiid := 0 }) := by
  induction l generalizing c with
  | nil => simp [alloc_ids]
  | cons f rest ih =>
    intro p hp
    cases f
    · rw [show alloc_ids (false :: rest) c =
          ({ domid := (c + 1) % 2^32, vcpuid := 0, apicid := 0, acpiid := 0 } ::
            (alloc_ids rest ((c + 1) % 2^32)).1, (alloc_ids rest ((c + 1) % 2^32)).2)
          from rfl] at hp
      simp only [List.zip_cons_cons, List.mem_cons] at hp
      rcases hp with rfl | hp
      · exact ⟨rfl, rfl, rfl, fun hh => Bool.noConfusion hh⟩
      · exact ih _ p hp
    · rw [show alloc_ids (true :: rest) c =
          ({ domid := 0, vcpuid := 0, apicid := 0, acpiid := 0 } ::
            (alloc_ids rest c).1, (alloc_ids rest c).2)
          from rfl] at hp
      simp only [List.zip_cons_cons, List.mem_cons] at hp
      rcases hp with rfl | hp
      · exact ⟨rfl, rfl, rfl, fun _ => rfl⟩
      · exact ih _ p hp

/-- Claim C4 amended: the claim holds verbatim for every sequence with
fewer than 2^32 non-management constructions (the shared counter is a
uint32 and wraps at 2^32, so the unbounded claim fails; see the
counterexample).  Starting from the fresh counter: management
constructions get ids {0,0,0,0}; the non-management domids are exactly
1, 2, ..., N (a list without repeats); every construction has vcpuid =
apicid = acpiid = 0 and satisfies the asserted postcondition vcpuid <
XEN_LEGACY_MAX_VCPUS. -/
theorem make_xen_ids_amended (l : List Bool) (h : count_nonmgmt l < 2^32) :
    nonmgmt_domids l 0 = List.range' 1 (count_nonmgmt l) ∧
    (List.range' 1 (count_nonmgmt l)).Nodup ∧
    (∀ p ∈ ((alloc_ids l 0).1).zip l,
      p.1.vcpuid = 0 ∧ p.1.apicid = 0 ∧ p.1.acpiid = 0 ∧
      p.1.vcpuid < XEN_LEGACY_MAX_VCPUS ∧
      (p.2 = true → p.1 = { domid := 0, vcpuid := 0, apicid := 0, acpiid := 0 })) := by
  refine ⟨nonmgmt_domids_eq_range l 0 (by omega), List.nodup_range' 1 _, ?_⟩
  intro p hp
  obtain ⟨h1, h2, h3, h4⟩ := alloc_ids_entries l 0 p hp
  refine ⟨h1, h2, h3, ?_, h4⟩
  rw [h1]
  norm_num [XEN_LEGACY_MAX_VCPUS]

/-- Witness for the amended C4 theorem on a concrete sequence: one
management construction interleaved among three non-management ones. -/
theorem make_xen_ids_amended_witness :
    count_nonmgmt [false, true, false, false] < 2^32 ∧
    nonmgmt_domids [false, true, false, false] 0 =
      List.range' 1 (count_nonmgmt [false, true, false, false]) ∧
    nonmgmt_domids [false, true, false, false] 0 = [1, 2, 3] := by
  refine ⟨by decide, (make_xen_ids_amended [false, true, false, false] (by decide)).1, by decide⟩

/-- The count of a replicate-false sequence. -/
theorem count_nonmgmt_replicate (n : Nat) :
    count_nonmgmt (List.replicate n false) = n := by
  induction n with
  | zero => rfl
  | succ n ih =>
    rw [List.replicate_succ]
    simp [count_nonmgmt, ih, Nat.add_comm]

/-- Closed form of the domids assigned along n consecutive
non-management constructions: the counter wraps modulo 2^32. -/
theorem nonmgmt_domids_replicate (n : Nat) :
    ∀ c, nonmgmt_domids (List.replicate n false) c =
      (List.range n).map (fun i => (c + i + 1) % 2^32) := by
  induction n with
  | zero => intro c; rfl
  | succ n ih =>
    intro c
    rw [List.replicate_succ, nonmgmt_domids_cons_false, ih ((c + 1) % 2^32),
      List.range_succ_eq_map, List.map_cons, List.map_map]
    simp only [List.cons.injEq, true_and]
    refine List.map_congr_left fun i _ => ?_
    show ((c + 1) % 2^32 + i + 1) % 2^32 = (c + (i + 1) + 1) % 2^32
    omega

/-- Claim C4 counterexample: for the sequence of N = 2^32 non-management
constructions the assigned domids are NOT 1, 2, ..., N — the uint32
counter wraps, so the last construction receives domid 0 instead of
2^32. -/
theorem domid_alloc_wrap_counterexample :
    nonmgmt_domids (List.replicate (2^32) false) 0 ≠
      List.range' 1 (count_nonmgmt (List.replicate (2^32) false)) := by
  intro hEq
  rw [nonmgmt_domids_replicate (2^32) 0, count_nonmgmt_replicate] at hEq
  have h2 := congrArg (fun t => t[2^32 - 1]?) hEq
  simp only [List.getElem?_map] at h2
  rw [List.getElem?_range (by norm_num), List.getElem?_range' 1 1 (by norm_num)] at h2
  simp only [Option.map_some', Option.some.injEq] at h2
  omega

/-! Claim C6. -/

/-- Registration establishes the accounting invariant, provided the
guest-supplied area has zeroed accumulators for the three states other
than running (the code overwrites time[running] itself). -/
theorem register_establishes_inv (st : XenSt) (area : RunstateInfo)
    (h1 : area.t1 = 0) (h2 : area.t2 = 0) (h3 : area.t3 = 0) :
    sum_entry_inv (register_runstate st area) := by
  intro rs hrs
  have hx : rs = { area with
      state := RUNSTATE_running
      state_entry_time := st.vti.system_time
      t0 := st.vti.system_time } := by
    simpa [register_runstate] using hrs.symm
  subst hx
  simp only [sumTime, h1, h2, h3, Nat.add_zero]
  exact Nat.ModEq.refl _

/-- One update_runstate call preserves the accounting invariant, as long
as the freshly computed system_time stays below the XEN_RUNSTATE_UPDATE
marker bit. -/
theorem update_runstate_preserves_inv (st : XenSt) (s t : Nat)
    (hinv : sum_entry_inv st) (hb : next_system_time st t < 2^63) :
    sum_entry_inv (update_runstate st s t) := by
  intro rs hrs
  cases hsh : st.shinfo_present with
  | false =>
    simp [update_runstate, hsh] at hrs
    exact hinv rs hrs
  | true =>
    cases huv : st.user_vti with
    | none =>
      simp [update_runstate, hsh, huv] at hrs
      exact hinv rs hrs
    | some uv =>
      cases hrst : st.runstate with
      | none =>
        simp [update_runstate, hsh, huv, hrst] at hrs
      | some rs0 =>
        simp [update_runstate, hsh, huv, hrst] at hrs
        have hentry : (runstate_step rs0 (next_system_time st t) st.runstate_assist s).state_entry_time =
            next_system_time st t := by
          simp only [runstate_step]
          cases st.runstate_assist
          · rfl
          · rw [if_pos rfl]
            exact runstate_entry_mask (next_system_time st t) hb
        rw [← hrs, hentry]
        calc sumTime (runstate_step rs0 (next_system_time st t) st.runstate_assist s)
            ≡ sumTime rs0 + sub64 (next_system_time st t) rs0.state_entry_time [MOD 2^64] :=
              sumTime_addTime rs0 rs0.state _
          _ ≡ rs0.state_entry_time + sub64 (next_system_time st t) rs0.state_entry_time [MOD 2^64] :=
              Nat.ModEq.add_right _ (hinv rs0 hrst)
          _ ≡ next_system_time st t [MOD 2^64] :=
              sub64_cancel (next_system_time st t) rs0.state_entry_time

/-- The accounting invariant is preserved along every bounded update
sequence. -/
theorem run_updates_preserves_inv (l : List (Nat × Nat)) (st : XenSt)
    (hinv : sum_entry_inv st) (hok : trace_ok st l) :
    sum_entry_inv (run_updates st l) := by
  induction l generalizing st with
  | nil => exact hinv
  | cons p rest ih =>
    obtain ⟨s, t⟩ := p
    simp only [trace_ok] at hok
    exact ih (update_runstate st s t) (update_runstate_preserves_inv st s t hinv hok.1) hok.2

/-- Claim C6 amended: after registration of the runstate area (with the
three non-running accumulators zero in the guest-supplied memory) and
any sequence of update_runstate calls whose system times stay below
2^63, the sum of the per-state accumulators plus the time elapsed in
the current state equals (mod 2^64) the current system_time — that is,
the total elapsed system time since domain boot, equivalently the time
elapsed since registration PLUS the system_time at registration.  It
does not equal the elapsed time since registration alone, because
registration seeds time[running] with the registration-time
system_time (see the counterexample). -/
theorem runstate_accounting_amended (st : XenSt) (area : RunstateInfo)
    (l : List (Nat × Nat))
    (h1 : area.t1 = 0) (h2 : area.t2 = 0) (h3 : area.t3 = 0)
    (hok : trace_ok (register_runstate st area) l) :
    ∀ rs, (run_updates (register_runstate st area) l).runstate = some rs →
      sumTime rs +
        sub64 (run_updates (register_runstate st area) l).vti.system_time
          rs.state_entry_time ≡
        (run_updates (register_runstate st area) l).vti.system_time [MOD 2^64] := by
  intro rs hrs
  have hinv := run_updates_preserves_inv l (register_runstate st area)
    (register_establishes_inv st area h1 h2 h3) hok rs hrs
  calc sumTime rs +
        sub64 (run_updates (register_runstate st area) l).vti.system_time rs.state_entry_time
      ≡ rs.state_entry_time +
        sub64 (run_updates (register_runstate st area) l).vti.system_time rs.state_entry_time
        [MOD 2^64] := Nat.ModEq.add_right _ hinv
    _ ≡ (run_updates (register_runstate st area) l).vti.system_time [MOD 2^64] :=
        sub64_cancel _ _

/-- Witness for the amended C6 theorem: registration at system_time 100
followed by two updates (to blocked at TSC 2^32, back to running at TSC
2^33); the final accumulators are t0 = 100 + 2^31 and t2 = 2^31, the
entry timestamp and system_time are 100 + 2^32, and the accounting
equation holds. -/
theorem runstate_accounting_amended_witness :
    sumTime { state := 0, state_entry_time := 100 + 2^32,
              t0 := 100 + 2^31, t1 := 0, t2 := 2^31, t3 := 0 } +
      sub64 (run_updates (register_runstate
          { st0 with
            user_vti := some st0.vti
            vti := { st0.vti with system_time := 100 } }
          { state := 3, state_entry_time := 77, t0 := 5, t1 := 0, t2 := 0, t3 := 0 })
          [(2, 2^32), (0, 2^33)]).vti.system_time
        (100 + 2^32) ≡
      (run_updates (register_runstate
          { st0 with
            user_vti := some st0.vti
            vti := { st0.vti with system_time := 100 } }
          { state := 3, state_entry_time := 77, t0 := 5, t1 := 0, t2 := 0, t3 := 0 })
          [(2, 2^32), (0, 2^33)]).vti.system_time [MOD 2^64] := by
  have h := runstate_accounting_amended
    { st0 with
      user_vti := some st0.vti
      vti := { st0.vti with system_time := 100 } }
    { state := 3, state_entry_time := 77, t0 := 5, t1 := 0, t2 := 0, t3 := 0 }
    [(2, 2^32), (0, 2^33)] rfl rfl rfl
    (by simp only [trace_ok]; decide)
  exact h { state := 0, state_entry_time := 100 + 2^32,
            t0 := 100 + 2^31, t1 := 0, t2 := 2^31, t3 := 0 } (by decide)

/-- Claim C6 counterexample: register the runstate area (zeroed by the
guest) at system_time 100 and make no further calls.  The sum of the
accumulators plus the elapsed time in the current state is 100 — the
registration seeded time[running] with the system_time — while the
total elapsed system time since the area was registered is 0.  The
claimed equality fails whenever registration happens at a nonzero
system_time. -/
theorem runstate_accounting_counterexample :
    (register_runstate { st0 with vti := { st0.vti with system_time := 100 } }
        { state := 0, state_entry_time := 0, t0 := 0, t1 := 0, t2 := 0, t3 := 0 }).runstate =
      some { state := 0, state_entry_time := 100, t0 := 100, t1 := 0, t2 := 0, t3 := 0 } ∧
    sumTime { state := 0, state_entry_time := 100, t0 := 100, t1 := 0, t2 := 0, t3 := 0 } +
      sub64 (register_runstate { st0 with vti := { st0.vti with system_time := 100 } }
          { state := 0, state_entry_time := 0, t0 := 0, t1 := 0, t2 := 0, t3 := 0 }).vti.system_time
        100 = 100 ∧
    sub64 (register_runstate { st0 with vti := { st0.vti with system_time := 100 } }
        { state := 0, state_entry_time := 0, t0 := 0, t1 := 0, t2 := 0, t3 := 0 }).vti.system_time
      100 = 0 ∧
    (100 : Nat) ≠ 0 := by
  refine ⟨rfl, by decide, by decide, by decide⟩

/-! Claim C7. -/

/-- Claim C7 counterexample: at ticks = 2^32, shift = 0, mult = 2^32 the
64-bit product in tsc_to_ns overflows (2^32 << 0) * 2^32 = 2^64 ≡ 0, so
the round trip returns 0 — an error of 2^32 ticks, far beyond the
truncation error of the two rounding divisions (at most 2^32/mult + 2 =
3 here).  The claim as stated, quantified over all 64-bit ticks, fails. -/
theorem tsc_roundtrip_overflow_counterexample :
    ns_to_tsc (tsc_to_ns (2^32) 0 (2^32)) 0 (2^32) = 0 ∧
    (2^32 : Nat) ≠ 0 ∧
    0 + (2^32 / 2^32 + 2) < (2^32 : Nat) := by
  refine ⟨rfl, by norm_num, by norm_num⟩

/-- Claim C7 amended: the round trip
ns_to_tsc (tsc_to_ns ticks shift mult) shift mult recovers ticks within
the truncation error of the two integer divisions — it never exceeds
ticks and falls short by at most 2^32/mult + 2 — provided the
intermediate product does not overflow 64 bits ((ticks << shift) * mult
< 2^64, which the unqualified claim lacks), with shift < 32 and mult
nonzero as claimed. -/
theorem tsc_roundtrip_amended (ticks shft mult : Nat)
    (_hs : shft < 32) (hm : 0 < mult)
    (hof : (ticks <<< shft) * mult < 2^64) :
    ns_to_tsc (tsc_to_ns ticks shft mult) shft mult ≤ ticks ∧
    ticks ≤ ns_to_tsc (tsc_to_ns ticks shft mult) shft mult + (2^32 / mult + 2) := by
  have hsl : ticks <<< shft = ticks * 2^shft := Nat.shiftLeft_eq ticks shft
  have hA_le : ticks <<< shft ≤ (ticks <<< shft) * mult := Nat.le_mul_of_pos_right _ hm
  have h1 : (ticks <<< shft) % 2^64 = ticks <<< shft :=
    Nat.mod_eq_of_lt (lt_of_le_of_lt hA_le hof)
  have h2 : ((ticks <<< shft) * mult) % 2^64 = (ticks <<< shft) * mult :=
    Nat.mod_eq_of_lt hof
  have hns : tsc_to_ns ticks shft mult = ticks * 2^shft * mult / 2^32 := by
    rw [tsc_to_ns, h1, h2, Nat.shiftRight_eq_div_pow, hsl]
  have hns_lt : ticks * 2^shft * mult / 2^32 < 2^32 := by
    apply Nat.div_lt_of_lt_mul
    calc ticks * 2^shft * mult < 2^64 := by rw [← hsl]; exact hof
      _ = 2^32 * 2^32 := by norm_num
  have h3 : (ticks * 2^shft * mult / 2^32) * 2^32 < 2^64 := by
    calc (ticks * 2^shft * mult / 2^32) * 2^32 < 2^32 * 2^32 :=
          (Nat.mul_lt_mul_right (by norm_num)).2 hns_lt
      _ = 2^64 := by norm_num
  have hrt : ns_to_tsc (tsc_to_ns ticks shft mult) shft mult =
      (ticks * 2^shft * mult / 2^32) * 2^32 / mult / 2^shft := by
    rw [hns, ns_to_tsc, Nat.shiftLeft_eq, Nat.mod_eq_of_lt h3, Nat.shiftRight_eq_div_pow]
  rw [hrt]
  constructor
  · have u1 : (ticks * 2^shft * mult / 2^32) * 2^32 ≤ ticks * 2^shft * mult :=
      Nat.div_mul_le_self _ _
    have u2 : (ticks * 2^shft * mult / 2^32) * 2^32 / mult ≤ ticks * 2^shft * mult / mult :=
      Nat.div_le_div_right u1
    rw [Nat.mul_div_cancel _ hm] at u2
    calc (ticks * 2^shft * mult / 2^32) * 2^32 / mult / 2^shft
        ≤ ticks * 2^shft / 2^shft := Nat.div_le_div_right u2
      _ = ticks := Nat.mul_div_cancel _ (Nat.pos_pow_of_pos shft (by norm_num))
  · have hpow : (0 : Nat) < 2^shft := Nat.pos_pow_of_pos shft (by norm_num)
    have l1 : ticks * 2^shft * mult < (ticks * 2^shft * mult / 2^32 + 1) * 2^32 :=
      (Nat.div_lt_iff_lt_mul (by norm_num)).1 (Nat.lt_succ_self _)
    have l2 : (ticks * 2^shft * mult / 2^32) * 2^32 <
        ((ticks * 2^shft * mult / 2^32) * 2^32 / mult + 1) * mult :=
      (Nat.div_lt_iff_lt_mul hm).1 (Nat.lt_succ_self _)
    have l3 : (ticks * 2^shft * mult / 2^32) * 2^32 / mult + 1 ≤
        ((ticks * 2^shft * mult / 2^32) * 2^32 / mult / 2^shft + 1) * 2^shft :=
      Nat.succ_le_of_lt ((Nat.div_lt_iff_lt_mul hpow).1 (Nat.lt_succ_self _))
    have l4 : (2^32 : Nat) < (2^32 / mult + 1) * mult :=
      (Nat.div_lt_iff_lt_mul hm).1 (Nat.lt_succ_self _)
    have key : ticks * 2^shft * mult <
        ((ticks * 2^shft * mult / 2^32) * 2^32 / mult / 2^shft + (2^32 / mult + 2)) *
          (2^shft * mult) := by
      calc ticks * 2^shft * mult
          < (ticks * 2^shft * mult / 2^32) * 2^32 + 2^32 := by omega
        _ < ((ticks * 2^shft * mult / 2^32) * 2^32 / mult + 1) * mult + 2^32 :=
            Nat.add_lt_add_right l2 _
        _ ≤ (((ticks * 2^shft * mult / 2^32) * 2^32 / mult / 2^shft + 1) * 2^shft) * mult
              + 2^32 := Nat.add_le_add_right (Nat.mul_le_mul_right _ l3) _
        _ < (((ticks * 2^shft * mult / 2^32) * 2^32 / mult / 2^shft + 1) * 2^shft) * mult
              + (2^32 / mult + 1) * mult := Nat.add_lt_add_left l4 _
        _ ≤ (((ticks * 2^shft * mult / 2^32) * 2^32 / mult / 2^shft + 1) * 2^shft) * mult
              + ((2^32 / mult + 1) * 2^shft) * mult := by
            refine Nat.add_le_add_left (Nat.mul_le_mul_right _ ?_) _
            exact Nat.le_mul_of_pos_right _ hpow
        _ = ((ticks * 2^shft * mult / 2^32) * 2^32 / mult / 2^shft + (2^32 / mult + 2)) *
              (2^shft * mult) := by ring
    have hmain : ticks * (2^shft * mult) <
        ((ticks * 2^shft * mult / 2^32) * 2^32 / mult / 2^shft + (2^32 / mult + 2)) *
          (2^shft * mult) := by
      calc ticks * (2^shft * mult) = ticks * 2^shft * mult := by ring
        _ < _ := key
    have hBpos : (0 : Nat) < 2^shft * mult := Nat.mul_pos hpow hm
    have hfin := (Nat.mul_lt_mul_right hBpos).1 hmain
    omega

/-- Witness for the amended C7 theorem: ticks = 1000, shift = 1, mult =
2^31 round-trips exactly (the error bound 2^32/mult + 2 = 4 is not
reached). -/
theorem tsc_roundtrip_amended_witness :
    (1 : Nat) < 32 ∧ (0 : Nat) < 2^31 ∧ ((1000 : Nat) <<< 1) * 2^31 < 2^64 ∧
    ns_to_tsc (tsc_to_ns 1000 1 (2^31)) 1 (2^31) ≤ 1000 ∧
    1000 ≤ ns_to_tsc (tsc_to_ns 1000 1 (2^31)) 1 (2^31) + (2^32 / 2^31 + 2) := by
  have h := tsc_roundtrip_amended 1000 1 (2^31) (by norm_num) (by norm_num) (by decide)
  exact ⟨by norm_num, by norm_num, by decide, h.1, h.2⟩
